import Mathlib

/-!
Verification development for the JAXtronomy/tutorials repository.

The repository holds two artifacts:
  * `tutorials/Intro-to-JAX.ipynb` — a Jupyter notebook (a JSON document:
    a list of cells, notebook-level metadata and a format version);
  * `.pre-commit-config.yaml` — the pre-commit hygiene configuration
    (ci messages, a top-level `exclude` regex, and a list of repo blocks,
    each pinning a revision and declaring hooks).

Both documents are transcribed below verbatim from the source files.  In
transcribed strings a literal brace is written with the escapes \x7b and
\x7d, which denote the same characters.  Theorems about the documents
follow the definitions.
-/

/-- A cell of the notebook as stored in the .ipynb JSON.  `outputs` and
`executionCount` are `none` when the JSON object has no such key (the
markdown cells); for a key that is present, `outputs` holds the list of
captured outputs (every such list in the file is empty, so the element
type is not exercised and `String` is used), and `executionCount` holds
`none` for the JSON value `null`.  Every cell's `metadata` in the file is
the empty object, so it is not modelled as a field. -/
structure Cell where
  cellType : String
  id : String
  source : List String
  outputs : Option (List String)
  executionCount : Option (Option Int)
deriving DecidableEq

/-- The notebook's `metadata.kernelspec` object. -/
structure KernelSpec where
  displayName : String
  language : String
  name : String
deriving DecidableEq

/-- The notebook's `metadata.language_info` object. -/
structure LanguageInfo where
  codemirrorModeName : String
  codemirrorModeVersion : Nat
  fileExtension : String
  mimetype : String
  name : String
  nbconvertExporter : String
  pygmentsLexer : String
  version : String
deriving DecidableEq

/-- The notebook's top-level `metadata` object. -/
structure NotebookMetadata where
  kernelspec : KernelSpec
  languageInfo : LanguageInfo
deriving DecidableEq

/-- The top level of the .ipynb JSON document: the cell list, the metadata
field and the format version (`nbformat` together with `nbformat_minor`). -/
structure Notebook where
  cells : List Cell
  metadata : NotebookMetadata
  nbformat : Nat
  nbformatMinor : Nat
deriving DecidableEq

/-- A hook declaration of the pre-commit configuration: its `id` and the
optional keys that occur in this file (`args`, `types_or`,
`additional_dependencies`); `none` means the key is absent. -/
structure Hook where
  id : String
  args : Option (List String)
  typesOr : Option (List String)
  additionalDependencies : Option (List String)
deriving DecidableEq

/-- A repo block of the pre-commit configuration: the repository URL, the
pinned revision `rev`, and its hook declarations. -/
structure RepoBlock where
  repo : String
  rev : String
  hooks : List Hook
deriving DecidableEq

/-- The `ci` block of the pre-commit configuration. -/
structure CIBlock where
  autoupdateCommitMsg : String
  autofixCommitMsg : String
deriving DecidableEq

/-- The pre-commit configuration document: the `ci` block, the top-level
`exclude` regex and the repo blocks, in file order. -/
structure PreCommitConfig where
  ci : CIBlock
  exclude : String
  repos : List RepoBlock
deriving DecidableEq

/-- Transcription of `src/.pre-commit-config.yaml`. -/
def preCommitConfig : PreCommitConfig :=
  { ci :=
      { autoupdateCommitMsg := "chore: update pre-commit hooks",
        autofixCommitMsg := "style: pre-commit fixes" },
    exclude := "^.cruft.json|.copier-answers.yml$",
    repos :=
      [ { repo := "https://github.com/pre-commit/pre-commit-hooks",
          rev := "v5.0.0",
          hooks :=
            [ { id := "check-added-large-files", args := none, typesOr := none, additionalDependencies := none },
              { id := "check-case-conflict", args := none, typesOr := none, additionalDependencies := none },
              { id := "check-merge-conflict", args := none, typesOr := none, additionalDependencies := none },
              { id := "check-symlinks", args := none, typesOr := none, additionalDependencies := none },
              { id := "check-yaml", args := none, typesOr := none, additionalDependencies := none },
              { id := "end-of-file-fixer", args := none, typesOr := none, additionalDependencies := none },
              { id := "mixed-line-ending", args := none, typesOr := none, additionalDependencies := none },
              { id := "name-tests-test", args := some ["--pytest-test-first"], typesOr := none, additionalDependencies := none },
              { id := "requirements-txt-fixer", args := none, typesOr := none, additionalDependencies := none },
              { id := "trailing-whitespace", args := none, typesOr := none, additionalDependencies := none } ] },
        { repo := "https://github.com/rbubley/mirrors-prettier",
          rev := "v3.4.2",
          hooks :=
            [ { id := "prettier",
                args := some ["--prose-wrap=always"],
                typesOr := some ["yaml", "markdown", "html", "css", "scss", "javascript", "json"],
                additionalDependencies := none } ] },
        { repo := "https://github.com/astral-sh/ruff-pre-commit",
          rev := "v0.9.5",
          hooks :=
            [ { id := "ruff", args := some ["--fix", "--show-fixes"], typesOr := some ["python", "jupyter"], additionalDependencies := none },
              { id := "ruff-format", args := none, typesOr := some ["python", "jupyter"], additionalDependencies := none } ] },
        { repo := "https://github.com/shellcheck-py/shellcheck-py",
          rev := "v0.10.0.1",
          hooks := [ { id := "shellcheck", args := none, typesOr := none, additionalDependencies := none } ] },
        { repo := "https://github.com/abravalheri/validate-pyproject",
          rev := "v0.23",
          hooks :=
            [ { id := "validate-pyproject", args := none, typesOr := none,
                additionalDependencies := some ["validate-pyproject-schema-store[all]"] } ] },
        { repo := "https://github.com/kynan/nbstripout",
          rev := "0.8.1",
          hooks := [ { id := "nbstripout", args := none, typesOr := none, additionalDependencies := none } ] } ] }

/-! ## Transcription of `src/tutorials/Intro-to-JAX.ipynb`
One definition per cell, in document order, with the JSON's field values
verbatim (braces escaped as \x7b and \x7d). -/

def cell0 : Cell :=
  { cellType := "markdown", executionCount := none, id := "0",
    outputs := none,
    source :=
      ["# Intro to JAX\n",
      "\n",
      "[Live notebook on Colab](https://colab.research.google.com/github/JAXtronomy/tutorials/blob/main/tutorials/Intro-to-JAX.ipynb)\n",
      "\n",
      "[Here is the slide deck](https://docs.google.com/presentation/d/1RcC0SFoXChmrJ6bhdFXgMrc4M6bCIGgWRdwkHFNBaiU/edit?usp=sharing)"] }

def cell1 : Cell :=
  { cellType := "code", executionCount := some none, id := "1",
    outputs := some [],
    source :=
      ["import jax\n",
      "import jax.numpy as jnp\n",
      "import matplotlib.pyplot as plt\n",
      "import numpy as np\n",
      "\n",
      "%xmode minimal"] }

def cell2 : Cell :=
  { cellType := "markdown", executionCount := none, id := "2",
    outputs := none,
    source :=
      ["## JIT Compilation\n",
      "\n",
      "Just-in-Time (JIT) compilation enables getting low-level language performance from Python code, on the fly. This can dramatically speed up some numerical computations, especially where loops are required or where the code is not easily vectorized. \n",
      "\n",
      "### Example: Computing the gravitational potential of a set of particles"] }

def cell3 : Cell :=
  { cellType := "code", executionCount := some none, id := "3",
    outputs := some [],
    source :=
      ["def func(x, a):\n",
      "    return jnp.log(jnp.sum(x**2, axis=1) + a**2)"] }

def cell4 : Cell :=
  { cellType := "code", executionCount := some none, id := "4",
    outputs := some [],
    source :=
      ["x = np.random.normal(size=(1_000_000, 3))"] }

def cell5 : Cell :=
  { cellType := "code", executionCount := some none, id := "5",
    outputs := some [],
    source :=
      ["# without JIT:\n",
      "%timeit func(x, 1.0).block_until_ready()"] }

def cell6 : Cell :=
  { cellType := "code", executionCount := some none, id := "6",
    outputs := some [],
    source :=
      ["func_jit = jax.jit(func)\n",
      "\n",
      "# this first call compiles the function\n",
      "func_jit(x, 1.0).block_until_ready()\n",
      "\n",
      "# with JIT:\n",
      "%timeit func_jit(x, 1.0).block_until_ready()"] }

def cell7 : Cell :=
  { cellType := "markdown", executionCount := none, id := "7",
    outputs := none,
    source :=
      ["This example is a little contrived since the non-JITted version is already vectorized, but it serves to illustrate the JIT compilation process. JIT is most useful when you need to run a function call many times either in a loop or some other iterative process. For example, optimization, MCMC sampling, orbit integration, etc.\n",
      "\n",
      "BTW: Other packages like Numba and PyTorch also have JIT compilation, but JAX's JIT pairs with XLA to produce highly optimized and hardware-specific machine code."] }

def cell8 : Cell :=
  { cellType := "markdown", executionCount := none, id := "8",
    outputs := none,
    source :=
      ["A brief aside about `.block_until_ready()`: JAX uses lazy evaluation, so it doesn't actually run the code until you need the values. This is great for performance, because JAX will build up a graph of function calls, compile it and send it to XLA for further optimization. But it can be confusing when debugging -- if you don't do this, it can seem like your code is running absurdly fast. `.block_until_ready()` forces JAX to run the code and wait for it to finish before continuing. Compare these:"] }

def cell9 : Cell :=
  { cellType := "markdown", executionCount := none, id := "9",
    outputs := none,
    source :=
      ["---\n",
      "\n",
      "## Vectorization with `vmap`\n",
      "\n",
      "If your function can be expressed using standard `numpy` operations, writing JAX code with `jax.numpy` to accept arrays as inputs will automatically vectorize the function. However, we often write functions that are not easily vectorized - for example, functions that contain conditional statements or loops. In these cases, `jax.vmap` provides an efficient way to apply a function across batches of inputs, often avoiding explicit (external) loops.\n",
      "\n",
      "For example, imagine you have a bunch of stellar spectra for a set of stars, and you want to compute the depth of some absorption line that appears at a different location (in pixels) for each star because of doppler shifts. You could write a function that computes the depth of the line for a single spectrum, and then use `jax.vmap` to apply it to all the stars in your dataset. \n",
      "\n",
      "### Example: Find the depth of an absorption line in a set of spectra\n",
      "\n",
      "First we simulate some \"spectra\":"] }

def cell10 : Cell :=
  { cellType := "code", executionCount := some none, id := "10",
    outputs := some [],
    source :=
      ["N = 128  # number of spectra to make\n",
      "\n",
      "rng = np.random.default_rng(123)\n",
      "pix = jnp.arange(100)\n",
      "\n",
      "true_ctr = rng.uniform(40, 60, size=(N,))\n",
      "true_depth = rng.uniform(0.1, 0.5, size=(N,))\n",
      "\n",
      "\n",
      "def make_spectrum(pix, ctr, depth, scale):\n",
      "    return 1 - depth * jnp.exp(-0.5 * (pix - ctr) ** 2 / scale**2)\n",
      "\n",
      "\n",
      "# we'll use vmap to simulate the spectra too ^_^\n",
      "spectra = jax.vmap(\n",
      "    make_spectrum,\n",
      "    in_axes=(None, 0, 0, None),\n",
      "    out_axes=0,\n",
      ")(pix, true_ctr, true_depth, 10.0).block_until_ready()"] }

def cell11 : Cell :=
  { cellType := "code", executionCount := some none, id := "11",
    outputs := some [],
    source :=
      ["plt.figure(figsize=(6, 4))\n",
      "_ = plt.plot(spectra.T, \"-\", alpha=0.1, color=\"k\")"] }

def cell12 : Cell :=
  { cellType := "markdown", executionCount := none, id := "12",
    outputs := none,
    source :=
      ["Now we have a set of spectra, and we want to find the depth of the absorption line near pixel ~50. We can write a function that computes the depth of the line for a single spectrum, and then use `jax.vmap` to apply it to all the spectra in our dataset:"] }

def cell13 : Cell :=
  { cellType := "code", executionCount := some none, id := "13",
    outputs := some [],
    source :=
      ["def find_depth(spectrum):\n",
      "    # find the minimum pixel value:\n",
      "    min_pix = jnp.argmin(spectrum)\n",
      "\n",
      "    # locally fit a parabola to the spectrum to find the inter-pixel minimum\n",
      "    y = jax.lax.dynamic_slice(spectrum, (min_pix - 1,), (3,))\n",
      "    x = jnp.arange(-1, 2)\n",
      "    A = jnp.vander(x, 3, increasing=True)  # creates a matrix with columns [1, x, x**2]\n",
      "    coeffs = jnp.linalg.lstsq(A, y, rcond=None)[0]\n",
      "\n",
      "    return 1 - coeffs[0]\n",
      "\n",
      "\n",
      "find_depth_vmap = jax.vmap(find_depth, in_axes=0)"] }

def cell14 : Cell :=
  { cellType := "code", executionCount := some none, id := "14",
    outputs := some [],
    source :=
      ["%%time\n",
      "for spectrum in spectra:\n",
      "    find_depth(spectrum).block_until_ready()"] }

def cell15 : Cell :=
  { cellType := "code", executionCount := some none, id := "15",
    outputs := some [],
    source :=
      ["%%time\n",
      "find_depth_vmap(spectra).block_until_ready()"] }

def cell16 : Cell :=
  { cellType := "code", executionCount := some none, id := "16",
    outputs := some [],
    source :=
      ["depths = find_depth_vmap(spectra).block_until_ready()\n",
      "plt.scatter(depths, true_depth)\n",
      "plt.xlabel(\"Measured depth\")\n",
      "plt.ylabel(\"True depth\")"] }

def cell17 : Cell :=
  { cellType := "markdown", executionCount := none, id := "17",
    outputs := none,
    source :=
      ["---\n",
      "\n",
      "## Automatic Differentiation\n",
      "\n",
      "Automatic differentiation (autodiff or autograd) allows you to compute exact gradients of functions. This is generally most useful for simplifying optimization problems (and enabling faster or novel optimization methods).\n",
      "\n",
      "### Example: Evaluating the gradient of a function"] }

def cell18 : Cell :=
  { cellType := "code", executionCount := some none, id := "18",
    outputs := some [],
    source :=
      ["def some_func(x, A, P):\n",
      "    return A * jnp.cos(2 * jnp.pi * x / P)"] }

def cell19 : Cell :=
  { cellType := "code", executionCount := some none, id := "19",
    outputs := some [],
    source :=
      ["some_func_grad = jax.grad(some_func, argnums=0)\n",
      "\n",
      "xgrid = jnp.linspace(0, 10, 4096)\n",
      "some_func_grad(xgrid, 1.0, 1.0)"] }

def cell20 : Cell :=
  { cellType := "markdown", executionCount := none, id := "20",
    outputs := none,
    source :=
      ["Huh, what happened? Why did this error? `jax.grad` only works on scalar outputs. If we try to pass in an array, the output of `some_func` will be an array. Instead of the above, if we want to compute the gradient for all elements in an array, we can use `jax.vmap` to vectorize the `grad`'ed function:"] }

def cell21 : Cell :=
  { cellType := "code", executionCount := some none, id := "21",
    outputs := some [],
    source :=
      ["some_func_grad_vmap = jax.vmap(jax.grad(some_func, argnums=0), in_axes=(0, None, None))"] }

def cell22 : Cell :=
  { cellType := "code", executionCount := some none, id := "22",
    outputs := some [],
    source :=
      ["plt.figure(figsize=(6, 4))\n",
      "plt.plot(xgrid, some_func(xgrid, 1.0, 1.0), \"-\", label=\"f(x)\")\n",
      "plt.plot(xgrid, some_func_grad_vmap(xgrid, 1.0, 1.0), \"-\", label=\"df/dx\")\n",
      "plt.legend(loc=\"lower right\", fontsize=20)"] }

def cell23 : Cell :=
  { cellType := "markdown", executionCount := none, id := "23",
    outputs := none,
    source :=
      ["---\n",
      "\n",
      "## Pytrees\n",
      "\n",
      "Pytrees are JAX’s structured data containers. Think of these as dictionaries, where the data may be scalar or array valued and could be arranged hierarchically. JAX functions often take Pytrees as input and output, and they are designed to be compatible with JAX's JIT compilation and autodiff features. Pytrees are one of my favorite features of JAX!\n",
      "\n",
      "### Example: Computing the gradient of a function with respect to a set of parameters\n"] }

def cell24 : Cell :=
  { cellType := "code", executionCount := some none, id := "24",
    outputs := some [],
    source :=
      ["def model(x, a, b):\n",
      "    return a * x + b\n",
      "\n",
      "\n",
      "def objective(params, x, y, y_err):\n",
      "    model_y = model(x, params[\"a\"], params[\"b\"])\n",
      "    return jnp.sum((y - model_y) ** 2 / y_err**2)  # chi2"] }

def cell25 : Cell :=
  { cellType := "code", executionCount := some none, id := "25",
    outputs := some [],
    source :=
      ["rng = np.random.default_rng(42)\n",
      "x = rng.uniform(0, 10, size=16)\n",
      "y = model(x, a=8.67, b=5.309)\n",
      "y_err = rng.uniform(0.1, 5.0, size=len(x))\n",
      "y += rng.normal(0, y_err, size=len(x))\n",
      "\n",
      "plt.figure(figsize=(6, 4))\n",
      "plt.errorbar(x, y, yerr=y_err, fmt=\"o\", label=\"data\")"] }

def cell26 : Cell :=
  { cellType := "code", executionCount := some none, id := "26",
    outputs := some [],
    source :=
      ["objecive_grad = jax.grad(objective, argnums=0)"] }

def cell27 : Cell :=
  { cellType := "code", executionCount := some none, id := "27",
    outputs := some [],
    source :=
      ["objecive_grad(\x7b\"a\": 1.0, \"b\": 1.0\x7d, x, y, y_err)"] }

def cell28 : Cell :=
  { cellType := "markdown", executionCount := none, id := "28",
    outputs := none,
    source :=
      ["### Example: Using `vmap` over a pytree of parameters\n",
      "\n",
      "You can use `jax.vmap` to efficiently evaluate a function for a batch of pytree keys. Suppose we have arrays of parameter sets and we want to evaluate the function for each set of parameters:"] }

def cell29 : Cell :=
  { cellType := "code", executionCount := some none, id := "29",
    outputs := some [],
    source :=
      ["params_arr = \x7b\n",
      "    \"a\": jnp.linspace(0, 10, 5),\n",
      "    \"b\": jnp.linspace(-5, 5, 5),\n",
      "\x7d\n",
      "\n",
      "objective_vmap = jax.vmap(objective, in_axes=(\x7b\"a\": 0, \"b\": 0\x7d, None, None, None))\n",
      "chi2_arr = objective_vmap(params_arr, x, y, y_err).block_until_ready()\n",
      "chi2_arr"] }

def cell30 : Cell :=
  { cellType := "markdown", executionCount := none, id := "30",
    outputs := none,
    source :=
      ["# Sharp Bits\n",
      "\n",
      "## Control flow\n",
      "\n",
      "In general, use `jax.lax.cond` instead of `if` statements, and `jax.lax.scan` instead of `for` loops. This is because JAX uses XLA to compile the code, and XLA needs to know the shape of the data at compile time. "] }

def cell31 : Cell :=
  { cellType := "code", executionCount := some none, id := "31",
    outputs := some [],
    source :=
      ["@jax.jit\n",
      "def func_if1(x):\n",
      "    if x > 0:\n",
      "        return x**3\n",
      "    else:\n",
      "        return x**2"] }

def cell32 : Cell :=
  { cellType := "code", executionCount := some none, id := "32",
    outputs := some [],
    source :=
      ["func_if1(10.0)"] }

def cell33 : Cell :=
  { cellType := "code", executionCount := some none, id := "33",
    outputs := some [],
    source :=
      ["@jax.jit\n",
      "def func_if2(x):\n",
      "    return jax.lax.cond(x > 0, lambda: x**3, lambda: x**2)"] }

def cell34 : Cell :=
  { cellType := "code", executionCount := some none, id := "34",
    outputs := some [],
    source :=
      ["func_if2(10.0)"] }

def cell35 : Cell :=
  { cellType := "markdown", executionCount := none, id := "35",
    outputs := none,
    source :=
      ["# Teaser: Using physical units in JAX code\n",
      "\n",
      "`astropy.units` has the `Quantity` object for handling data with associated physical units. However, this is an explicit subclass of `numpy.ndarray`, so JAX does not work natively with Astropy units. Instead, in the meantime, we are building a new package called `unxt` for handling JAX tracers with physical units. This package is still in development, but it is ready for use:"] }

def cell36 : Cell :=
  { cellType := "code", executionCount := some none, id := "36",
    outputs := some [],
    source :=
      ["import unxt as u\n",
      "import quaxed"] }

def cell37 : Cell :=
  { cellType := "code", executionCount := some none, id := "37",
    outputs := some [],
    source :=
      ["pos = u.Quantity(jnp.arange(10.0), \"kpc\")\n",
      "time = u.Quantity(5.3, \"Gyr\")\n",
      "\n",
      "result = pos / time\n",
      "result.unit"] }

def cell38 : Cell :=
  { cellType := "code", executionCount := some none, id := "38",
    outputs := some [],
    source :=
      ["def compute_potential(r, GM, a):\n",
      "    # Gravitational potential for a Hernquist model:\n",
      "    return -GM / (r + a)"] }

def cell39 : Cell :=
  { cellType := "code", executionCount := some none, id := "39",
    outputs := some [],
    source :=
      ["dPhi_dr = quaxed.grad(compute_potential)"] }

def cell40 : Cell :=
  { cellType := "code", executionCount := some none, id := "40",
    outputs := some [],
    source :=
      ["r = u.Quantity(1.0, \"kpc\")\n",
      "GM = u.Quantity(1.0, \"kpc^3 / Gyr^2\")\n",
      "a = u.Quantity(1.0, \"kpc\")\n",
      "compute_potential(r, GM, a).block_until_ready()"] }

def cell41 : Cell :=
  { cellType := "code", executionCount := some none, id := "41",
    outputs := some [],
    source :=
      ["dPhi_dr(r, GM, a).block_until_ready()"] }

def cell42 : Cell :=
  { cellType := "code", executionCount := some none, id := "42",
    outputs := some [],
    source :=
      [] }

def introToJaxCells : List Cell :=
  [cell0, cell1, cell2, cell3, cell4, cell5, cell6, cell7, cell8, cell9, cell10, cell11, cell12, cell13, cell14, cell15, cell16, cell17, cell18, cell19, cell20, cell21, cell22, cell23, cell24, cell25, cell26, cell27, cell28, cell29, cell30, cell31, cell32, cell33, cell34, cell35, cell36, cell37, cell38, cell39, cell40, cell41, cell42]
/-- The notebook document `src/tutorials/Intro-to-JAX.ipynb`. -/
def introToJax : Notebook :=
  { cells := introToJaxCells,
    metadata :=
      { kernelspec := { displayName := ".venv", language := "python", name := "python3" },
        languageInfo :=
          { codemirrorModeName := "ipython",
            codemirrorModeVersion := 3,
            fileExtension := ".py",
            mimetype := "text/x-python",
            name := "python",
            nbconvertExporter := "python",
            pygmentsLexer := "ipython3",
            version := "3.12.7" } },
    nbformat := 4,
    nbformatMinor := 5 }

/-! ## Structural properties of the two documents -/

/-- Drop a source line's trailing newline character, if any (the .ipynb
JSON stores every non-final line of a cell with a trailing newline). -/
def stripNl : List Char → List Char
  | [] => []
  | ['\n'] => []
  | c :: cs => c :: stripNl cs

/-- The six section headings of the tutorial's narrative, in the order the
spec lists the topics: JIT compilation, vectorized mapping, automatic
differentiation, pytrees, control-flow restrictions, the units teaser. -/
def sectionHeadings : List (List Char) :=
  [("## JIT Compilation").toList,
   ("## Vectorization with `vmap`").toList,
   ("## Automatic Differentiation").toList,
   ("## Pytrees").toList,
   ("## Control flow").toList,
   ("# Teaser: Using physical units in JAX code").toList]

/-- Every source line of the notebook, in document order. -/
def allSourceLines : List String := (introToJax.cells.map Cell.source).flatten

/-- The notebook's source lines (trailing newline dropped) that equal one
of the six section headings, kept in document order. -/
def headingOccurrences : List (List Char) :=
  (allSourceLines.map (fun l => stripNl l.toList)).filter
    (fun l => sectionHeadings.contains l)

/-- Whether `pat` occurs as a contiguous substring of the second list. -/
def hasSub (pat : List Char) : List Char → Bool
  | [] => pat.isEmpty
  | c :: rest => pat.isPrefixOf (c :: rest) || hasSub pat rest

/-- Whether a cell's source mentions Python's exception-handling keywords:
a cell whose source contains a `try`/`except`/`finally` construct would
contain the substrings `try` and `except` (or `finally`) in some line. -/
def mentionsExceptionHandling (c : Cell) : Bool :=
  c.source.any (fun l =>
    hasSub ("try").toList l.toList || hasSub ("except").toList l.toList ||
      hasSub ("finally").toList l.toList)

/-- C3: the notebook is a JSON document whose top level has a cell list, a
metadata field and a format version (`nbformat` 4, `nbformat_minor` 5),
and every one of its 43 cells carries a type tag that is `markdown` or
`code`, a nonempty identifier and source lines, and, when the type tag is
`code`, an outputs field and an execution-counter field. -/
theorem notebook_cell_shape :
    introToJax.nbformat = 4 ∧ introToJax.nbformatMinor = 5 ∧
    introToJax.cells.length = 43 ∧
    ∀ c ∈ introToJax.cells,
      (c.cellType = "markdown" ∨ c.cellType = "code") ∧ c.id ≠ "" ∧
      (c.cellType = "code" → c.outputs.isSome ∧ c.executionCount.isSome) := by
  refine ⟨rfl, rfl, rfl, ?_⟩
  decide

/-- C10: the notebook's cell identifiers are pairwise distinct and, in
document order, are exactly the decimal strings for 0 through 42 in
increasing numeric order. -/
theorem notebook_cell_ids :
    introToJax.cells.map Cell.id = (List.range 43).map (fun n => toString n) ∧
    (introToJax.cells.map Cell.id).Nodup := by
  exact ⟨by decide, by decide⟩

/-- C8: every code cell of the notebook is stored stripped — its outputs
list is empty and its execution counter is the JSON `null` — and the
hygiene configuration declares the nbstripout hook that enforces this. -/
theorem code_cells_stripped :
    (∀ c ∈ introToJax.cells, c.cellType = "code" →
      c.outputs = some [] ∧ c.executionCount = some none) ∧
    (∃ rb ∈ preCommitConfig.repos, rb.repo = "https://github.com/kynan/nbstripout" ∧
      ∃ h ∈ rb.hooks, h.id = "nbstripout") := by
  exact ⟨by decide, by decide⟩

/-- C6: scanning every source line of the notebook in document order, the
lines that are section headings of the six presented topics occur exactly
once each and exactly in the narrative order: JIT compilation, vectorized
mapping with vmap, automatic differentiation, pytrees, control-flow
restrictions, the units extension. -/
theorem section_heading_order : headingOccurrences = sectionHeadings := by
  decide

/-- C7: no code cell of the notebook contains an exception-handling
construct (no `try`, `except` or `finally` occurs in any code cell's
source, even as a substring). -/
theorem no_exception_handling :
    ∀ c ∈ introToJax.cells, c.cellType = "code" →
      mentionsExceptionHandling c = false := by
  decide

/-- Witness for `no_exception_handling`, instantiated at the import cell
(id "1"). -/
theorem no_exception_handling_witness :
    mentionsExceptionHandling cell1 = false :=
  no_exception_handling cell1 (by decide) (by decide)

/-- C4 counterexample: the shellcheck hook declaration of the hygiene
configuration carries no applicability filter (its `types_or` key is
absent, as are `args` and `additional_dependencies`), so not every hook
declaration names its applicability filters. -/
theorem hook_without_filter :
    ∃ rb ∈ preCommitConfig.repos, ∃ h ∈ rb.hooks,
      h.id = "shellcheck" ∧ h.typesOr = none ∧ h.args = none := by
  decide

/-- C4 amended: the external tool revision is pinned once per repo block
(a nonempty `rev` covering the block's hooks), not on each hook, and
applicability filters are optional per hook: exactly the prettier, ruff
and ruff-format hook declarations carry a `types_or` filter. -/
theorem hooks_rev_and_filters :
    (∀ rb ∈ preCommitConfig.repos, rb.rev ≠ "" ∧ rb.hooks ≠ []) ∧
    ((preCommitConfig.repos.map RepoBlock.hooks).flatten.filter
      (fun h => h.typesOr.isSome)).map Hook.id = ["prettier", "ruff", "ruff-format"] := by
  exact ⟨by decide, by decide⟩

/-- The module-level names each notebook cell binds, by cell position: the
aliases its `import` statements introduce, the targets of its top-level
assignments, the names of its `def` statements and its `for`-loop
variables, read off each cell's source.  Markdown cells bind nothing. -/
def cellBinds : List (List String) :=
  [[],
   ["jax", "jnp", "plt", "np"],
   [],
   ["func"],
   ["x"],
   [],
   ["func_jit"],
   [], [], [],
   ["N", "rng", "pix", "true_ctr", "true_depth", "make_spectrum", "spectra"],
   ["_"],
   [],
   ["find_depth", "find_depth_vmap"],
   ["spectrum"],
   [],
   ["depths"],
   [],
   ["some_func"],
   ["some_func_grad", "xgrid"],
   [],
   ["some_func_grad_vmap"],
   [],
   [],
   ["model", "objective"],
   ["rng", "x", "y", "y_err"],
   ["objecive_grad"],
   [],
   [],
   ["params_arr", "objective_vmap", "chi2_arr"],
   [],
   ["func_if1"],
   [],
   ["func_if2"],
   [],
   [],
   ["u", "quaxed"],
   ["pos", "time", "result"],
   ["compute_potential"],
   ["dPhi_dr"],
   ["r", "GM", "a"],
   [],
   []]

/-- The module-level names each notebook cell's source references (in its
top-level statements or inside the bodies of the functions it defines), by
cell position, read off each cell's source.  Python builtins (`len` in
cell 25) and attribute or keyword-argument names are not module-level
references and are omitted; markdown cells reference nothing. -/
def cellReads : List (List String) :=
  [[],
   [],
   [],
   ["jnp"],
   ["np"],
   ["func", "x"],
   ["jax", "func", "x", "func_jit"],
   [], [], [],
   ["np", "jnp", "jax", "rng", "make_spectrum", "pix", "true_ctr", "true_depth", "N"],
   ["plt", "spectra"],
   [],
   ["jnp", "jax", "find_depth"],
   ["spectra", "find_depth", "spectrum"],
   ["find_depth_vmap", "spectra"],
   ["find_depth_vmap", "spectra", "plt", "depths", "true_depth"],
   [],
   ["jnp"],
   ["jax", "some_func", "jnp", "some_func_grad", "xgrid"],
   [],
   ["jax", "some_func"],
   ["plt", "xgrid", "some_func", "some_func_grad_vmap"],
   [],
   ["model", "jnp"],
   ["np", "rng", "model", "x", "y_err", "y", "plt"],
   ["jax", "objective"],
   ["objecive_grad", "x", "y", "y_err"],
   [],
   ["jnp", "jax", "objective", "params_arr", "objective_vmap", "x", "y", "y_err", "chi2_arr"],
   [],
   ["jax"],
   ["func_if1"],
   ["jax"],
   ["func_if2"],
   [],
   [],
   ["u", "jnp", "pos", "time", "result"],
   [],
   ["quaxed", "compute_potential"],
   ["u", "compute_potential", "r", "GM", "a"],
   ["dPhi_dr", "r", "GM", "a"],
   []]

/-- C5: data flow between the notebook's cells is strictly linear and
top-to-bottom: every module-level name a cell references is bound within
the cell itself or by a cell at an earlier (or the same) position, so no
cell references a name first defined by a later cell. -/
theorem linear_data_flow :
    cellBinds.length = introToJax.cells.length ∧
    cellReads.length = introToJax.cells.length ∧
    ∀ i : Fin cellReads.length, ∀ n ∈ cellReads.get i,
      ∃ j : Fin cellBinds.length, j.val ≤ i.val ∧ n ∈ cellBinds.get j := by
  refine ⟨rfl, rfl, ?_⟩
  decide

/-! ## The exclude pattern of the hygiene configuration

pre-commit matches its top-level `exclude` value against each file path
with Python `re.search`.  The pattern in this file uses only literal
characters, `.` (any character except a newline), the anchors `^` and `$`
and one unparenthesized `|`, so that tiny fragment of regular-expression
syntax is embedded here: alternation has the lowest precedence, each
alternative is a token sequence optionally anchored at its start (a
leading `^`) and at its end (a trailing `$`), and a search succeeds when
some alternative matches at some position of the path. -/

/-- A token of the embedded regex fragment: `.` or a literal character. -/
inductive RTok where
  | dot : RTok
  | lit : Char → RTok
deriving DecidableEq

/-- Python `re` semantics of one token against one character: `.` matches
any character except a newline; a literal matches itself. -/
def tokMatches : RTok → Char → Bool
  | RTok.dot, c => decide (c ≠ '\n')
  | RTok.lit a, c => decide (a = c)

/-- Match a token sequence against the front of `s`: `some rest` when the
tokens consume a prefix of `s` and `rest` remains, `none` otherwise. -/
def toksMatch : List RTok → List Char → Option (List Char)
  | [], s => some s
  | _ :: _, [] => none
  | t :: ts, c :: s => if tokMatches t c = true then toksMatch ts s else none

/-- One alternative of an alternation: optionally anchored at the start
(`^`), a token sequence, optionally anchored at the end (`$`). -/
structure RBranch where
  anchoredStart : Bool
  toks : List RTok
  anchoredEnd : Bool
deriving DecidableEq

/-- Whether a branch matches at the current position: its tokens must
consume a prefix, and with an end anchor nothing may remain. -/
def branchMatchAt (b : RBranch) (s : List Char) : Bool :=
  match toksMatch b.toks s with
  | some rest => !b.anchoredEnd || rest.isEmpty
  | none => false

/-- `re.search` of one branch: try every start position of `s`; a branch
anchored at the start is tried only at position 0. -/
def branchSearch (b : RBranch) : List Char → Bool
  | [] => branchMatchAt b []
  | c :: s => branchMatchAt b (c :: s) || (!b.anchoredStart && branchSearch b s)

/-- `re.search` of an alternation: some alternative matches somewhere. -/
def regexSearch (bs : List RBranch) (s : List Char) : Bool :=
  bs.any (fun b => branchSearch b s)

/-- Split a character list at every occurrence of `sep` (the pieces, in
order, with the separators dropped). -/
def splitOnChar (sep : Char) : List Char → List (List Char)
  | [] => [[]]
  | c :: rest =>
    match splitOnChar sep rest with
    | [] => if c = sep then [[], []] else [[c]]
    | h :: t => if c = sep then [] :: h :: t else (c :: h) :: t

/-- Parse one alternative: a leading `^` anchors the start, a trailing `$`
anchors the end, `.` is the any-character token, every other character a
literal. -/
def parseBranch (cs : List Char) : RBranch :=
  let st : Bool := cs.head? == some '^'
  let cs1 := if st then cs.tail else cs
  let en : Bool := cs1.getLast? == some '$'
  let cs2 := if en then cs1.dropLast else cs1
  ⟨st, cs2.map (fun c => if c == '.' then RTok.dot else RTok.lit c), en⟩

/-- Parse a pattern as an unparenthesized alternation: `|` has the lowest
precedence, so the pattern is the alternation of its `|`-separated
pieces. -/
def parseRegex (pat : String) : List RBranch :=
  (splitOnChar '|' pat.toList).map parseBranch

/-- The first alternative of the exclude pattern, `^.cruft.json`: start
anchor, any character, the literals `cruft`, any character, the literals
`json`, no end anchor. -/
def cruftBranch : RBranch :=
  ⟨true,
   RTok.dot :: ("cruft").toList.map RTok.lit
     ++ RTok.dot :: ("json").toList.map RTok.lit,
   false⟩

/-- The second alternative of the exclude pattern,
`.copier-answers.yml$`: no start anchor, any character, the literals
`copier-answers`, any character, the literals `yml`, end anchor. -/
def copierBranch : RBranch :=
  ⟨false,
   RTok.dot :: ("copier-answers").toList.map RTok.lit
     ++ RTok.dot :: ("yml").toList.map RTok.lit,
   true⟩

/-- `re.search` of the configuration's top-level exclude pattern against a
path. -/
def excludeSearch (s : List Char) : Bool :=
  regexSearch (parseRegex preCommitConfig.exclude) s

/-- The paths the first alternative accepts: a non-newline character, then
`cruft`, then a non-newline character, then `json`, all at the very start
of the path, with arbitrary text after. -/
def cruftShape (s : List Char) : Prop :=
  ∃ a b r, a ≠ '\n' ∧ b ≠ '\n' ∧
    s = a :: ("cruft").toList ++ b :: ("json").toList ++ r

/-- The paths the second alternative accepts: a non-newline character,
then `copier-answers`, then a non-newline character, then `yml`, all at
the very end of the path, with arbitrary text before. -/
def copierShape (s : List Char) : Prop :=
  ∃ p a b, a ≠ '\n' ∧ b ≠ '\n' ∧
    s = p ++ a :: ("copier-answers").toList ++ b :: ("yml").toList

theorem toksMatch_append (ts us : List RTok) (s : List Char) :
    toksMatch (ts ++ us) s = (toksMatch ts s).bind (toksMatch us) := by
  induction ts generalizing s with
  | nil => simp [toksMatch]
  | cons t ts ih =>
    cases s with
    | nil => simp [toksMatch]
    | cons c s =>
      simp only [List.cons_append, toksMatch]
      by_cases h : tokMatches t c = true
      · simp [h, ih]
      · simp [h]

theorem toksMatch_lits (w s r : List Char) :
    toksMatch (w.map RTok.lit) s = some r ↔ s = w ++ r := by
  induction w generalizing s with
  | nil => simp [toksMatch]
  | cons a w ih =>
    cases s with
    | nil => simp [toksMatch]
    | cons c s =>
      simp only [List.map_cons, toksMatch, tokMatches, decide_eq_true_eq,
        List.cons_append, List.cons.injEq]
      by_cases h : a = c
      · subst h; simp [ih]
      · simp only [if_neg h]
        constructor
        · intro hc; cases hc
        · rintro ⟨he, -⟩; exact absurd he.symm h

theorem toksMatch_dot (ts : List RTok) (s r : List Char) :
    toksMatch (RTok.dot :: ts) s = some r ↔
      ∃ c s', s = c :: s' ∧ c ≠ '\n' ∧ toksMatch ts s' = some r := by
  cases s with
  | nil => simp [toksMatch]
  | cons c s' =>
    simp only [toksMatch, tokMatches, decide_eq_true_eq, List.cons.injEq]
    by_cases h : c = '\n'
    · subst h
      simp only [ne_eq, not_true_eq_false, if_false]
      constructor
      · intro hc; cases hc
      · rintro ⟨c0, s0, ⟨rfl, rfl⟩, hc0, -⟩; exact absurd rfl hc0
    · simp only [ne_eq, h, not_false_eq_true, if_true]
      constructor
      · intro ht; exact ⟨c, s', ⟨rfl, rfl⟩, h, ht⟩
      · rintro ⟨c0, s0, ⟨rfl, rfl⟩, -, ht⟩; exact ht

theorem toksMatch_lits_append (w : List Char) (ts : List RTok) (s r : List Char) :
    toksMatch (w.map RTok.lit ++ ts) s = some r ↔
      ∃ s', s = w ++ s' ∧ toksMatch ts s' = some r := by
  rw [toksMatch_append]
  cases h : toksMatch (w.map RTok.lit) s with
  | none =>
    simp only [Option.bind]
    constructor
    · intro hc; cases hc
    · rintro ⟨s', rfl, -⟩
      have hy := (toksMatch_lits w (w ++ s') s').mpr rfl
      rw [h] at hy; cases hy
  | some mid =>
    have hm := (toksMatch_lits w s mid).mp h
    subst hm
    simp only [Option.bind]
    constructor
    · intro ht; exact ⟨mid, rfl, ht⟩
    · rintro ⟨s', he, ht⟩
      have : mid = s' := List.append_cancel_left he
      rw [this]; exact ht

theorem toksMatch_dot_lits (w : List Char) (ts : List RTok) (s r : List Char) :
    toksMatch (RTok.dot :: w.map RTok.lit ++ ts) s = some r ↔
      ∃ a s', a ≠ '\n' ∧ s = a :: (w ++ s') ∧ toksMatch ts s' = some r := by
  rw [List.cons_append, toksMatch_dot]
  constructor
  · rintro ⟨c, s1, rfl, hc, hm⟩
    obtain ⟨s', rfl, ht⟩ := (toksMatch_lits_append w ts s1 r).mp hm
    exact ⟨c, s', hc, rfl, ht⟩
  · rintro ⟨a, s', ha, rfl, ht⟩
    exact ⟨a, w ++ s', rfl, ha, (toksMatch_lits_append w ts (w ++ s') r).mpr ⟨s', rfl, ht⟩⟩

theorem toksMatch_dot_lits_nil (v s r : List Char) :
    toksMatch (RTok.dot :: v.map RTok.lit) s = some r ↔
      ∃ b, b ≠ '\n' ∧ s = b :: (v ++ r) := by
  rw [toksMatch_dot]
  constructor
  · rintro ⟨c, s', rfl, hc, hm⟩
    have := (toksMatch_lits v s' r).mp hm
    exact ⟨c, hc, by rw [this]⟩
  · rintro ⟨b, hb, rfl⟩
    exact ⟨b, v ++ r, rfl, hb, (toksMatch_lits v (v ++ r) r).mpr rfl⟩

/-- Matching the token sequence of either alternative — any character,
a literal word `w`, any character, a literal word `v` — consumes exactly
such a prefix. -/
theorem toksMatch_two_dots (w v s r : List Char) :
    toksMatch ((RTok.dot :: w.map RTok.lit) ++ (RTok.dot :: v.map RTok.lit)) s = some r ↔
      ∃ a b, a ≠ '\n' ∧ b ≠ '\n' ∧ s = a :: (w ++ b :: (v ++ r)) := by
  rw [show (RTok.dot :: w.map RTok.lit) ++ (RTok.dot :: v.map RTok.lit)
      = RTok.dot :: w.map RTok.lit ++ (RTok.dot :: v.map RTok.lit) from rfl]
  rw [toksMatch_dot_lits]
  constructor
  · rintro ⟨a, s', ha, rfl, hm⟩
    obtain ⟨b, hb, rfl⟩ := (toksMatch_dot_lits_nil v s' r).mp hm
    exact ⟨a, b, ha, hb, rfl⟩
  · rintro ⟨a, b, ha, hb, rfl⟩
    exact ⟨a, b :: (v ++ r), ha, rfl, (toksMatch_dot_lits_nil v (b :: (v ++ r)) r).mpr ⟨b, hb, rfl⟩⟩

theorem branchMatchAt_free (b : RBranch) (hb : b.anchoredEnd = false) (s : List Char) :
    branchMatchAt b s = true ↔ ∃ r, toksMatch b.toks s = some r := by
  unfold branchMatchAt
  cases h : toksMatch b.toks s with
  | none => simp [h]
  | some rest => simp [h, hb]

theorem branchMatchAt_exact (b : RBranch) (hb : b.anchoredEnd = true) (s : List Char) :
    branchMatchAt b s = true ↔ toksMatch b.toks s = some [] := by
  unfold branchMatchAt
  cases h : toksMatch b.toks s with
  | none => simp [h]
  | some rest => simp [h, hb, List.isEmpty_iff]

theorem branchSearch_of_anchored (b : RBranch) (hb : b.anchoredStart = true)
    (s : List Char) : branchSearch b s = branchMatchAt b s := by
  cases s with
  | nil => rfl
  | cons c s => simp [branchSearch, hb]

theorem branchSearch_iff_suffix (b : RBranch) (hb : b.anchoredStart = false)
    (s : List Char) :
    branchSearch b s = true ↔ ∃ p q, s = p ++ q ∧ branchMatchAt b q = true := by
  induction s with
  | nil =>
    constructor
    · intro h; exact ⟨[], [], rfl, h⟩
    · rintro ⟨p, q, hpq, hm⟩
      obtain ⟨rfl, rfl⟩ := List.append_eq_nil.mp hpq.symm
      exact hm
  | cons c s ih =>
    simp only [branchSearch, hb, Bool.not_false, Bool.true_and, Bool.or_eq_true, ih]
    constructor
    · rintro (h | ⟨p, q, rfl, hm⟩)
      · exact ⟨[], c :: s, rfl, h⟩
      · exact ⟨c :: p, q, rfl, hm⟩
    · rintro ⟨p, q, hpq, hm⟩
      cases p with
      | nil => rw [List.nil_append] at hpq; left; rw [hpq]; exact hm
      | cons d p =>
        rw [List.cons_append] at hpq
        injection hpq with h1 h2
        right; exact ⟨p, q, h2, hm⟩

/-- The paths the first alternative of the exclude pattern finds: exactly
`cruftShape`. -/
theorem cruft_branch_iff (s : List Char) :
    branchSearch cruftBranch s = true ↔ cruftShape s := by
  rw [branchSearch_of_anchored cruftBranch rfl, branchMatchAt_free cruftBranch rfl]
  unfold cruftShape
  constructor
  · rintro ⟨r, hm⟩
    obtain ⟨a, b, ha, hb, hs⟩ := (toksMatch_two_dots (("cruft").toList) (("json").toList) s r).mp hm
    exact ⟨a, b, r, ha, hb, by simpa using hs⟩
  · rintro ⟨a, b, r, ha, hb, hs⟩
    exact ⟨r, (toksMatch_two_dots (("cruft").toList) (("json").toList) s r).mpr
      ⟨a, b, ha, hb, by simpa using hs⟩⟩

/-- The paths the second alternative of the exclude pattern finds: exactly
`copierShape`. -/
theorem copier_branch_iff (s : List Char) :
    branchSearch copierBranch s = true ↔ copierShape s := by
  rw [branchSearch_iff_suffix copierBranch rfl]
  unfold copierShape
  constructor
  · rintro ⟨p, q, rfl, hm⟩
    have hq := (branchMatchAt_exact copierBranch rfl q).mp hm
    obtain ⟨a, b, ha, hb, hs⟩ :=
      (toksMatch_two_dots (("copier-answers").toList) (("yml").toList) q []).mp hq
    exact ⟨p, a, b, ha, hb, by simp [hs]⟩
  · rintro ⟨p, a, b, ha, hb, rfl⟩
    refine ⟨p, a :: (("copier-answers").toList ++ b :: ("yml").toList), by simp, ?_⟩
    rw [branchMatchAt_exact copierBranch rfl]
    exact (toksMatch_two_dots (("copier-answers").toList) (("yml").toList) _ []).mpr
      ⟨a, b, ha, hb, by simp⟩

/-- C9: the configuration's exclude value `^.cruft.json|.copier-answers.yml$`
parses as an unparenthesized alternation whose start anchor belongs only to
the first alternative and whose end anchor belongs only to the second; a
path matches exactly when it starts with any (non-newline) character,
`cruft`, any character and `json` — anything may follow — or ends with any
character, `copier-answers`, any character and `yml`; and the pattern is
not equivalent to matching the two literal file names exactly. -/
theorem exclude_pattern_semantics :
    parseRegex preCommitConfig.exclude = [cruftBranch, copierBranch] ∧
    cruftBranch.anchoredStart = true ∧ cruftBranch.anchoredEnd = false ∧
    copierBranch.anchoredStart = false ∧ copierBranch.anchoredEnd = true ∧
    (∀ s : List Char, excludeSearch s = true ↔ (cruftShape s ∨ copierShape s)) ∧
    (∃ s : List Char, excludeSearch s = true ∧
      s ≠ (".cruft.json").toList ∧ s ≠ (".copier-answers.yml").toList) := by
  have hparse : parseRegex preCommitConfig.exclude = [cruftBranch, copierBranch] := by
    decide
  refine ⟨hparse, rfl, rfl, rfl, rfl, ?_, ?_⟩
  · intro s
    have hsearch : excludeSearch s
        = (branchSearch cruftBranch s || branchSearch copierBranch s) := by
      unfold excludeSearch
      rw [hparse]
      simp [regexSearch]
    rw [hsearch, Bool.or_eq_true, cruft_branch_iff, copier_branch_iff]
  · exact ⟨("xcruftyjson").toList, by decide, by decide, by decide⟩
